import Mathlib

/-!
Shallow embedding of the streaming-ingestion client of this repository
(`snowpipe_streaming_client.py` and `snowflake_jwt_auth.py`).

Modelling conventions:
* Python `str` is Lean `String`; Python `None` on a string-valued slot is
  `Option.none`; Python truthiness of such a slot (`if x:`) is `truthy`.
* Mutating methods become state-passing functions
  `Session → inputs → HttpResponse → Session × List Request × Except PyError α`:
  the returned `Session` is the object's field state after the call (exceptions
  leave the mutations already performed in place, exactly as in Python), the
  `List Request` records the HTTP requests the call issued, and the `Except`
  carries the return value or the raised exception.
* A network reply is passed in as an `HttpResponse` whose body is the already
  parsed JSON shape of the relevant endpoint; a missing JSON key is a `none`
  field (reading it with `[...]` raises `KeyError`, with `.get` yields `None`).
* `requests`' `Response.raise_for_status` raises exactly for status codes in
  `[400, 600)`.
* Wall-clock time in `wait_for_commit` is abstracted: the 1-second sleep per
  iteration means at most `timeout_seconds` polls happen before the deadline,
  so the loop runs on that fuel and `polls i` is the reply to the i-th poll.
-/

/-- Truthiness of a Python optional-string slot: `None` and `""` are falsy. -/
def truthy : Option String → Bool
  | none => false
  | some s => s ≠ ""

/-- Python `str(x)` for an optional-string slot (`str(None) = "None"`). -/
def pyStr : Option String → String
  | none => "None"
  | some s => s

/-- Python `s.lower()` (ASCII case folding, character by character). -/
def pyToLower (s : String) : String :=
  ⟨s.data.map Char.toLower⟩

/-- Fuel-driven core of Python `str.replace`: scan left to right, replace each
non-overlapping occurrence of `pat` by `repl`.  The fuel is an upper bound on
the scanned length; callers pass `s.length`, which always suffices because each
step consumes at least one character. -/
def pyReplaceAux (pat repl : List Char) : Nat → List Char → List Char
  | _, [] => []
  | 0, s => s
  | fuel + 1, c :: rest =>
    if pat ≠ [] ∧ pat.isPrefixOf (c :: rest) then
      repl ++ pyReplaceAux pat repl fuel ((c :: rest).drop pat.length)
    else
      c :: pyReplaceAux pat repl fuel rest

/-- Python `s.replace(pat, repl)` on character lists (for nonempty `pat`). -/
def pyReplaceList (s pat repl : List Char) : List Char :=
  pyReplaceAux pat repl s.length s

/-- Python `s.replace(pat, repl)` on strings. -/
def pyReplaceStr (s pat repl : String) : String :=
  ⟨pyReplaceList s.data pat.data repl.data⟩

/-- Whether `pat` occurs as a contiguous sublist of `s`. -/
def hasSub (s pat : List Char) : Bool :=
  s.tails.any fun t => pat.isPrefixOf t

/-- Python lexicographic `<` on strings, compared code point by code point. -/
def pyCharListLt : List Char → List Char → Bool
  | [], [] => false
  | [], _ :: _ => true
  | _ :: _, [] => false
  | a :: as, b :: bs =>
    if a.toNat < b.toNat then true
    else if b.toNat < a.toNat then false
    else pyCharListLt as bs

/-- Python `a >= b` on strings (negation of lexicographic `<`). -/
def pyStrGe (a b : String) : Bool :=
  ! pyCharListLt a.data b.data

section PyReplaceLemmas

theorem pyReplaceAux_nil (pat repl : List Char) (fuel : Nat) :
    pyReplaceAux pat repl fuel [] = [] := by
  cases fuel <;> rfl

theorem pyReplaceAux_no_occurrence (pat repl : List Char) :
    ∀ fuel s, s.length ≤ fuel → hasSub s pat = false →
      pyReplaceAux pat repl fuel s = s := by
  intro fuel
  induction fuel with
  | zero =>
    intro s hlen _
    cases s with
    | nil => rfl
    | cons c rest => simp at hlen
  | succ n ih =>
    intro s hlen hsub
    cases s with
    | nil => rfl
    | cons c rest =>
      have hterms : (pat.isPrefixOf (c :: rest) = false) ∧ hasSub rest pat = false := by
        unfold hasSub at hsub
        rw [List.tails_cons] at hsub
        simp only [List.any_cons, Bool.or_eq_false_iff] at hsub
        exact ⟨hsub.1, hsub.2⟩
      have hnot : ¬ (pat ≠ [] ∧ pat.isPrefixOf (c :: rest)) := by
        intro h
        rw [hterms.1] at h
        exact Bool.false_ne_true h.2
      rw [pyReplaceAux, if_neg hnot]
      have : rest.length ≤ n := by
        simp only [List.length_cons] at hlen
        omega
      rw [ih rest this hterms.2]

theorem pyReplaceAux_leading (pat repl : List Char) (hne : pat ≠ []) :
    ∀ fuel t, pyReplaceAux pat repl (fuel + 1) (pat ++ t) =
      repl ++ pyReplaceAux pat repl fuel t := by
  intro fuel t
  cases hp : pat with
  | nil => exact absurd hp hne
  | cons p ps =>
    have hpre : (p :: ps).isPrefixOf (p :: ps ++ t) = true := by
      rw [List.isPrefixOf_iff_prefix]
      exact List.prefix_append (p :: ps) t
    rw [List.cons_append, pyReplaceAux,
      if_pos ⟨by simp, by simp⟩]
    congr 1
    rw [← List.cons_append, List.drop_left]

theorem pyReplaceList_single_char :
    ∀ s : List Char, pyReplaceList s ['_'] ['-'] =
      s.map fun c => if c = '_' then '-' else c := by
  have key : ∀ fuel s, s.length ≤ fuel →
      pyReplaceAux ['_'] ['-'] fuel s = s.map fun c => if c = '_' then '-' else c := by
    intro fuel
    induction fuel with
    | zero =>
      intro s hlen
      cases s with
      | nil => rfl
      | cons c rest => simp at hlen
    | succ n ih =>
      intro s hlen
      cases s with
      | nil => rfl
      | cons c rest =>
        rw [pyReplaceAux]
        have hr : rest.length ≤ n := by
          simp only [List.length_cons] at hlen
          omega
        by_cases hc : c = '_'
        · subst hc
          rw [if_pos ⟨by simp, by simp [List.isPrefixOf]⟩]
          simp [ih rest hr]
        · have : ¬ ((['_'] : List Char) ≠ [] ∧ (['_'] : List Char).isPrefixOf (c :: rest)) := by
            intro h
            have := h.2
            simp [List.isPrefixOf] at this
            exact hc (by simpa using this.symm)
          rw [if_neg this]
          simp [ih rest hr, hc]
  intro s
  exact key s.length s le_rfl

end PyReplaceLemmas

/-- Decimal-digit test on a character by code point (`'0'` is 48, `'9'` is 57). -/
def isDecimalDigit (c : Char) : Bool :=
  48 ≤ c.toNat && c.toNat ≤ 57

/-- Numeric value of a decimal-digit string (the spec's "numeric value of the
token"). -/
def decimalValue (s : String) : Nat :=
  s.data.foldl (fun n c => 10 * n + (c.toNat - 48)) 0

section DecimalLemmas

theorem decimal_foldl_shift :
    ∀ (l : List Char) (a : Nat),
      l.foldl (fun n c => 10 * n + (c.toNat - 48)) a =
        a * 10 ^ l.length + l.foldl (fun n c => 10 * n + (c.toNat - 48)) 0 := by
  intro l
  induction l with
  | nil => intro a; simp
  | cons c rest ih =>
    intro a
    simp only [List.foldl_cons, List.length_cons]
    rw [ih (10 * a + (c.toNat - 48)), ih (10 * 0 + (c.toNat - 48))]
    ring

theorem decimalValue_cons (c : Char) (l : List Char) :
    (String.mk (c :: l)).data.foldl (fun n c => 10 * n + (c.toNat - 48)) 0 =
      (c.toNat - 48) * 10 ^ l.length +
        l.foldl (fun n c => 10 * n + (c.toNat - 48)) 0 := by
  simp only [List.foldl_cons]
  rw [decimal_foldl_shift l (10 * 0 + (c.toNat - 48))]
  ring

theorem decimal_foldl_lt_pow (l : List Char) (h : ∀ c ∈ l, isDecimalDigit c = true) :
    l.foldl (fun n c => 10 * n + (c.toNat - 48)) 0 < 10 ^ l.length := by
  induction l with
  | nil => simp
  | cons c rest ih =>
    have hd : c.toNat - 48 ≤ 9 := by
      have := h c (List.mem_cons_self c rest)
      simp only [isDecimalDigit, Bool.and_eq_true, decide_eq_true_eq] at this
      omega
    have hrest := ih fun x hx => h x (List.mem_cons_of_mem c hx)
    simp only [List.foldl_cons, List.length_cons]
    rw [decimal_foldl_shift rest (10 * 0 + (c.toNat - 48))]
    have h1 : (10 * 0 + (c.toNat - 48)) * 10 ^ rest.length +
        rest.foldl (fun n c => 10 * n + (c.toNat - 48)) 0 <
        (c.toNat - 48 + 1) * 10 ^ rest.length := by
      nlinarith [hrest]
    have h2 : (c.toNat - 48 + 1) * 10 ^ rest.length ≤ 10 * 10 ^ rest.length :=
      Nat.mul_le_mul_right _ (by omega)
    calc (10 * 0 + (c.toNat - 48)) * 10 ^ rest.length +
          rest.foldl (fun n c => 10 * n + (c.toNat - 48)) 0
        < (c.toNat - 48 + 1) * 10 ^ rest.length := h1
      _ ≤ 10 * 10 ^ rest.length := h2
      _ = 10 ^ (rest.length + 1) := by ring

theorem pyCharListLt_iff_decimal_lt :
    ∀ (s t : List Char), s.length = t.length →
      (∀ c ∈ s, isDecimalDigit c = true) → (∀ c ∈ t, isDecimalDigit c = true) →
      (pyCharListLt s t = true ↔
        s.foldl (fun n c => 10 * n + (c.toNat - 48)) 0 <
          t.foldl (fun n c => 10 * n + (c.toNat - 48)) 0) := by
  intro s
  induction s with
  | nil =>
    intro t hlen _ _
    cases t with
    | nil => simp [pyCharListLt]
    | cons b bs => simp at hlen
  | cons a as ih =>
    intro t hlen hs ht
    cases t with
    | nil => simp at hlen
    | cons b bs =>
      have hlen2 : as.length = bs.length := by
        simp only [List.length_cons] at hlen
        omega
      have hda : 48 ≤ a.toNat ∧ a.toNat ≤ 57 := by
        have := hs a (List.mem_cons_self a as)
        simp only [isDecimalDigit, Bool.and_eq_true, decide_eq_true_eq] at this
        exact this
      have hdb : 48 ≤ b.toNat ∧ b.toNat ≤ 57 := by
        have := ht b (List.mem_cons_self b bs)
        simp only [isDecimalDigit, Bool.and_eq_true, decide_eq_true_eq] at this
        exact this
      have has := fun x hx => hs x (List.mem_cons_of_mem a hx)
      have hbs := fun x hx => ht x (List.mem_cons_of_mem b hx)
      have hv_as := decimal_foldl_lt_pow as has
      have hv_bs := decimal_foldl_lt_pow bs hbs
      simp only [List.foldl_cons]
      rw [decimal_foldl_shift as (10 * 0 + (a.toNat - 48)),
        decimal_foldl_shift bs (10 * 0 + (b.toNat - 48))]
      rw [pyCharListLt]
      by_cases hab : a.toNat < b.toNat
      · rw [if_pos hab]
        simp only [true_iff]
        have hstep : (a.toNat - 48) + 1 ≤ b.toNat - 48 := by omega
        have : ((a.toNat - 48) + 1) * 10 ^ as.length ≤
            (b.toNat - 48) * 10 ^ bs.length := by
          rw [hlen2]
          exact Nat.mul_le_mul_right _ hstep
        nlinarith [hv_as]
      · rw [if_neg hab]
        by_cases hba : b.toNat < a.toNat
        · rw [if_pos hba]
          simp only [Bool.false_eq_true, false_iff, not_lt]
          have hstep : (b.toNat - 48) + 1 ≤ a.toNat - 48 := by omega
          have : ((b.toNat - 48) + 1) * 10 ^ bs.length ≤
              (a.toNat - 48) * 10 ^ as.length := by
            rw [← hlen2]
            exact Nat.mul_le_mul_right _ hstep
          nlinarith [hv_bs]
        · rw [if_neg hba]
          have heqd : a.toNat - 48 = b.toNat - 48 := by omega
          rw [ih bs hlen2 has hbs, heqd, hlen2]
          omega

end DecimalLemmas

/-!
Concrete embeddings of the library primitives used by
`snowflake_jwt_auth._public_key_fingerprint`: `hashlib.sha256` (FIPS 180-4)
and `base64.b64encode`, over byte lists (`List Nat`, each element < 256).
-/

/-- Truncation to a 32-bit word. -/
def w32 (n : Nat) : Nat := n % 4294967296

/-- Right rotation of a 32-bit word. -/
def rotr32 (k x : Nat) : Nat := w32 ((x >>> k) ||| (x <<< (32 - k)))

def sha256Ch (x y z : Nat) : Nat := (x &&& y) ^^^ ((x ^^^ 4294967295) &&& z)

def sha256Maj (x y z : Nat) : Nat := (x &&& y) ^^^ (x &&& z) ^^^ (y &&& z)

def sha256BigSigma0 (x : Nat) : Nat := rotr32 2 x ^^^ rotr32 13 x ^^^ rotr32 22 x

def sha256BigSigma1 (x : Nat) : Nat := rotr32 6 x ^^^ rotr32 11 x ^^^ rotr32 25 x

def sha256SmallSigma0 (x : Nat) : Nat := rotr32 7 x ^^^ rotr32 18 x ^^^ (x >>> 3)

def sha256SmallSigma1 (x : Nat) : Nat := rotr32 17 x ^^^ rotr32 19 x ^^^ (x >>> 10)

/-- The 64 SHA-256 round constants. -/
def sha256K : List Nat :=
  [1116352408, 1899447441, 3049323471, 3921009573,
   961987163, 1508970993, 2453635748, 2870763221,
   3624381080, 310598401, 607225278, 1426881987,
   1925078388, 2162078206, 2614888103, 3248222580,
   3835390401, 4022224774, 264347078, 604807628,
   770255983, 1249150122, 1555081692, 1996064986,
   2554220882, 2821834349, 2952996808, 3210313671,
   3336571891, 3584528711, 113926993, 338241895,
   666307205, 773529912, 1294757372, 1396182291,
   1695183700, 1986661051, 2177026350, 2456956037,
   2730485921, 2820302411, 3259730800, 3345764771,
   3516065817, 3600352804, 4094571909, 275423344,
   430227734, 506948616, 659060556, 883997877,
   958139571, 1322822218, 1537002063, 1747873779,
   1955562222, 2024104815, 2227730452, 2361852424,
   2428436474, 2756734187, 3204031479, 3329325298]

/-- SHA-256 padding: append `0x80`, zero bytes, and the 64-bit big-endian bit
length, so the total length is a multiple of 64 bytes. -/
def sha256Pad (msg : List Nat) : List Nat :=
  let len := msg.length
  let bitLen := len * 8
  let k := (119 - (len % 64)) % 64
  msg ++ [0x80] ++ List.replicate k 0 ++
    [(bitLen >>> 56) % 256, (bitLen >>> 48) % 256, (bitLen >>> 40) % 256,
     (bitLen >>> 32) % 256, (bitLen >>> 24) % 256, (bitLen >>> 16) % 256,
     (bitLen >>> 8) % 256, bitLen % 256]

/-- Group bytes into big-endian 32-bit words. -/
def bytesToWords : List Nat → List Nat
  | a :: b :: c :: d :: rest =>
    (a * 16777216 + b * 65536 + c * 256 + d) :: bytesToWords rest
  | _ => []

/-- Split a word list into 16-word (64-byte) chunks. -/
def wordChunks : List Nat → List (List Nat)
  | w0 :: w1 :: w2 :: w3 :: w4 :: w5 :: w6 :: w7 ::
    w8 :: w9 :: w10 :: w11 :: w12 :: w13 :: w14 :: w15 :: rest =>
    [w0, w1, w2, w3, w4, w5, w6, w7, w8, w9, w10, w11, w12, w13, w14, w15] ::
      wordChunks rest
  | _ => []

/-- One extension step of the SHA-256 message schedule. -/
def sha256ScheduleStep (w : List Nat) : List Nat :=
  let i := w.length
  w ++ [w32 (sha256SmallSigma1 (w.getD (i - 2) 0) + w.getD (i - 7) 0 +
    sha256SmallSigma0 (w.getD (i - 15) 0) + w.getD (i - 16) 0)]

/-- Extend a 16-word chunk to the 64-word message schedule. -/
def sha256Schedule (w16 : List Nat) : List Nat :=
  (List.range 48).foldl (fun w _ => sha256ScheduleStep w) w16

/-- The eight 32-bit working variables of the SHA-256 compression function. -/
structure Sha256State where
  a : Nat
  b : Nat
  c : Nat
  d : Nat
  e : Nat
  f : Nat
  g : Nat
  h : Nat
  deriving DecidableEq

/-- One SHA-256 compression round. -/
def sha256Round (st : Sha256State) (kw wt : Nat) : Sha256State :=
  let t1 := w32 (st.h + sha256BigSigma1 st.e + sha256Ch st.e st.f st.g + kw + wt)
  let t2 := w32 (sha256BigSigma0 st.a + sha256Maj st.a st.b st.c)
  ⟨w32 (t1 + t2), st.a, st.b, st.c, w32 (st.d + t1), st.e, st.f, st.g⟩

/-- Compress one 64-byte chunk into the running hash state. -/
def sha256Compress (hst : Sha256State) (chunk : List Nat) : Sha256State :=
  let w := sha256Schedule chunk
  let st := (sha256K.zip w).foldl (fun st kw => sha256Round st kw.1 kw.2) hst
  ⟨w32 (hst.a + st.a), w32 (hst.b + st.b), w32 (hst.c + st.c), w32 (hst.d + st.d),
   w32 (hst.e + st.e), w32 (hst.f + st.f), w32 (hst.g + st.g), w32 (hst.h + st.h)⟩

/-- The SHA-256 initial hash value. -/
def sha256Init : Sha256State :=
  ⟨1779033703, 3144134277, 1013904242, 2773480762,
   1359893119, 2600822924, 528734635, 1541459225⟩

/-- Big-endian bytes of a 32-bit word. -/
def wordBytes (w : Nat) : List Nat :=
  [(w >>> 24) % 256, (w >>> 16) % 256, (w >>> 8) % 256, w % 256]

/-- SHA-256 digest (32 bytes) of a byte list, as `hashlib.sha256(...).digest()`. -/
def sha256 (msg : List Nat) : List Nat :=
  let final := (wordChunks (bytesToWords (sha256Pad msg))).foldl sha256Compress sha256Init
  wordBytes final.a ++ wordBytes final.b ++ wordBytes final.c ++ wordBytes final.d ++
    wordBytes final.e ++ wordBytes final.f ++ wordBytes final.g ++ wordBytes final.h

/-- The base64 alphabet. -/
def base64Table : List Char :=
  "ABCDEFGHIJKLMNOPQRSTUVWXYZabcdefghijklmnopqrstuvwxyz0123456789+/".data

def base64Digit (i : Nat) : Char := base64Table.getD i '='

/-- RFC 4648 base64 encoding of a byte list, as `base64.b64encode`. -/
def base64EncodeList : List Nat → List Char
  | [] => []
  | [a] =>
    [base64Digit (a >>> 2), base64Digit ((a % 4) <<< 4), '=', '=']
  | [a, b] =>
    [base64Digit (a >>> 2), base64Digit (((a % 4) <<< 4) + (b >>> 4)),
     base64Digit ((b % 16) <<< 2), '=']
  | a :: b :: c :: rest =>
    base64Digit (a >>> 2) :: base64Digit (((a % 4) <<< 4) + (b >>> 4)) ::
    base64Digit (((b % 16) <<< 2) + (c >>> 6)) :: base64Digit (c % 64) ::
    base64EncodeList rest

def base64Encode (bytes : List Nat) : String := ⟨base64EncodeList bytes⟩

/-- Embedding of `_public_key_fingerprint`: the key material is the
DER-encoded `SubjectPublicKeyInfo` of the public key (the byte string
`public_bytes(Encoding.DER, PublicFormat.SubjectPublicKeyInfo)` produces);
the fingerprint is the base64 of its SHA-256 digest, prefixed `"SHA256:"`. -/
def _public_key_fingerprint (der_bytes : List Nat) : String :=
  "SHA256:" ++ base64Encode (sha256 der_bytes)

/-!
Embedding of `snowflake_jwt_auth.generate_jwt`'s claim-set construction.  Key
loading and RS256 signing are external library calls; `now` stands for the one
`int(time.time())` call, and `public_key_fp` for the pre-supplied or computed
fingerprint chosen by `config.public_key_fp or _public_key_fingerprint(...)`.
-/

/-- The signed-token claim set built by `generate_jwt`. -/
structure JwtPayload where
  iss : String
  sub : String
  iat : Int
  exp : Int
  deriving DecidableEq

/-- Embedding of `_normalize_identifier` (ASCII uppercase). -/
def _normalize_identifier (value : String) : String := value.toUpper

/-- The payload dict of `generate_jwt`. -/
def generate_jwt_payload (account_identifier user public_key_fp : String)
    (now lifetime_seconds : Int) : JwtPayload :=
  let account := _normalize_identifier account_identifier
  let userUp := _normalize_identifier user
  { iss := account ++ "." ++ userUp ++ "." ++ public_key_fp
    sub := account ++ "." ++ userUp
    iat := now
    exp := now + lifetime_seconds }

/-!
Data model of `snowpipe_streaming_client.py`.
-/

/-- Embedding of the `SnowpipeConfig` dataclass. -/
structure SnowpipeConfig where
  account_identifier : String
  user : String
  role : String
  database : String
  schema : String
  table : String
  pipe : String
  channel_name : String
  auth_method : String
  private_key_path : String
  private_key_passphrase : Option String
  public_key_fp : Option String
  jwt_lifetime_seconds : Int
  pat_token : Option String
  control_host : Option String
  deriving DecidableEq

/-- The mutable instance fields of `SnowpipeStreamingClient`. -/
structure Session where
  config : SnowpipeConfig
  control_host : String
  ingest_host : Option String
  scoped_token : Option String
  scoped_token_type : Option String
  continuation_token : Option String
  offset_token : Option String
  deriving DecidableEq

/-- The exceptions the client can raise. -/
inductive PyError where
  | httpError (status : Nat)
  | runtimeError (msg : String)
  | keyError (key : String)
  | valueError (msg : String)
  deriving DecidableEq

/-- Body of an outgoing request: none, a string-valued JSON object, the bulk
status JSON payload, form data, or raw bytes (the NDJSON payload). -/
inductive RequestBody where
  | empty
  | jsonObj (fields : List (String × String))
  | jsonChannelNames (names : List String)
  | form (fields : List (String × String))
  | raw (data : String)
  deriving DecidableEq

/-- An HTTP request the client issues. -/
structure Request where
  method : String
  url : String
  params : List (String × String)
  headers : List (String × String)
  body : RequestBody
  deriving DecidableEq

/-- An HTTP reply, with the endpoint's parsed JSON body shape. -/
structure HttpResponse (β : Type) where
  status : Nat
  body : β
  deriving DecidableEq

/-- `requests.Response.raise_for_status` raises exactly on status 400–599. -/
def raiseForStatusErrs (status : Nat) : Bool :=
  decide (400 ≤ status) && decide (status < 600)

/-- Embedding of `SnowpipeStreamingClient.__init__`. -/
def mkClient (config : SnowpipeConfig) : Session :=
  let control_host :=
    if truthy config.control_host then
      pyReplaceStr (pyReplaceStr (pyStr config.control_host) "https://" "") "http://" ""
    else
      config.account_identifier ++ ".snowflakecomputing.com"
  { config := config
    control_host := control_host
    ingest_host := none
    scoped_token := none
    scoped_token_type := none
    continuation_token := none
    offset_token := none }

/-- Embedding of `_headers` (the token and type slots may hold Python `None`). -/
def _headers (token : Option String) (token_type : Option String) :
    List (String × String) :=
  let headers := [("Authorization", "Bearer " ++ pyStr token)]
  if truthy token_type then
    headers ++ [("X-Snowflake-Authorization-Token-Type", pyStr token_type)]
  else
    headers

/-- Embedding of `_auth_token`.  `jwt` is the string `_jwt_token()` would
return (external signing). -/
def _auth_token (s : Session) (jwt : String) : Except PyError (String × String) :=
  let auth_method := pyToLower s.config.auth_method
  if auth_method = "pat" ∨ auth_method = "programmatic_access_token" ∨
      auth_method = "programmatic" then
    if ¬ truthy s.config.pat_token then
      .error (.valueError "pat_token is required for auth_method=pat")
    else
      .ok (pyStr s.config.pat_token, "PROGRAMMATIC_ACCESS_TOKEN")
  else
    .ok (jwt, "KEYPAIR_JWT")

/-- Body shapes of the hostname-discovery reply: parsed JSON (whose
`hostname` key may be missing) or, on a JSON decode error, the raw text. -/
inductive HostBody where
  | jsonBody (hostname : Option String)
  | textBody (text : String)
  deriving DecidableEq

/-- The pre-normalization hostname `get_ingest_host` discovers in a reply:
`payload.get("hostname")` for JSON, the stripped text otherwise. -/
def extractedHost (body : HostBody) : Option String :=
  match body with
  | .jsonBody hostname => hostname
  | .textBody text => some text.trim

/-- The underscore normalization in `get_ingest_host`:
`if "_" in host: host = host.replace("_", "-")`. -/
def normalizeHostname (host : String) : String :=
  if host.contains '_' then pyReplaceStr host "_" "-" else host

/-- Embedding of `get_ingest_host`. -/
def get_ingest_host (s : Session) (jwt : String) (resp : HttpResponse HostBody) :
    Session × List Request × Except PyError String :=
  match _auth_token s jwt with
  | .error e => (s, [], .error e)
  | .ok (token, token_type) =>
    let req : Request :=
      { method := "GET"
        url := "https://" ++ s.control_host ++ "/v2/streaming/hostname"
        params := []
        headers := _headers (some token) (some token_type)
        body := .empty }
    if raiseForStatusErrs resp.status then
      (s, [req], .error (.httpError resp.status))
    else
      let hostOpt := extractedHost resp.body
      if ¬ truthy hostOpt then
        (s, [req], .error (.runtimeError "Missing hostname in response"))
      else
        let host := normalizeHostname (pyStr hostOpt)
        ({ s with ingest_host := some host }, [req], .ok host)

/-- Body of the token-exchange reply (`token` key may be missing). -/
structure TokenBody where
  token : Option String
  deriving DecidableEq

/-- Embedding of `exchange_scoped_token`. -/
def exchange_scoped_token (s : Session) (jwt : String)
    (resp : HttpResponse TokenBody) :
    Session × List Request × Except PyError (Option String) :=
  if pyToLower s.config.auth_method = "pat" then
    ({ s with scoped_token := s.config.pat_token
              scoped_token_type := some "PROGRAMMATIC_ACCESS_TOKEN" },
     [], .ok s.config.pat_token)
  else
    match _auth_token s jwt with
    | .error e => (s, [], .error e)
    | .ok (token, token_type) =>
      let req : Request :=
        { method := "POST"
          url := "https://" ++ s.control_host ++ "/oauth/token"
          params := []
          headers := _headers (some token) (some token_type) ++
            [("Content-Type", "application/x-www-form-urlencoded")]
          body := .form [("grant_type", "urn:ietf:params:oauth:grant-type:jwt-bearer"),
                         ("scope", pyStr s.ingest_host)] }
      if raiseForStatusErrs resp.status then
        (s, [req], .error (.httpError resp.status))
      else
        match resp.body.token with
        | none => (s, [req], .error (.keyError "token"))
        | some tok =>
          ({ s with scoped_token := some tok, scoped_token_type := some "OAUTH" },
           [req], .ok (some tok))

/-- The `channel_status` object of an open-channel reply. -/
structure ChannelStatusInfo where
  last_committed_offset_token : Option String
  deriving DecidableEq

/-- Body of the open-channel reply; either top-level key may be missing. -/
structure OpenBody where
  next_continuation_token : Option String
  channel_status : Option ChannelStatusInfo
  deriving DecidableEq

/-- Embedding of `open_channel`.  `requestId` stands for the fresh
`_request_id()` UUID. -/
def open_channel (s : Session) (offset_token : Option String) (requestId : String)
    (resp : HttpResponse OpenBody) :
    Session × List Request × Except PyError OpenBody :=
  if ¬ truthy s.ingest_host then
    (s, [], .error (.runtimeError "ingest_host not initialized"))
  else
    let url := "https://" ++ pyStr s.ingest_host ++ "/v2/streaming/databases/" ++
      s.config.database ++ "/schemas/" ++ s.config.schema ++ "/pipes/" ++
      s.config.pipe ++ "/channels/" ++ s.config.channel_name
    let payload := match offset_token with
      | some o => [("offset_token", o)]
      | none => []
    let req : Request :=
      { method := "PUT"
        url := url
        params := [("requestId", requestId)]
        headers := _headers s.scoped_token s.scoped_token_type
        body := .jsonObj payload }
    if raiseForStatusErrs resp.status then
      (s, [req], .error (.httpError resp.status))
    else
      match resp.body.next_continuation_token with
      | none => (s, [req], .error (.keyError "next_continuation_token"))
      | some ct =>
        let s1 := { s with continuation_token := some ct }
        match resp.body.channel_status with
        | none => (s1, [req], .error (.keyError "channel_status"))
        | some cs =>
          ({ s1 with offset_token := cs.last_committed_offset_token },
           [req], .ok resp.body)

/-- Body of an append-rows reply (`next_continuation_token` may be missing). -/
structure AppendBody where
  next_continuation_token : Option String
  deriving DecidableEq

/-- Embedding of `append_rows`.  Each element of `rows` is the `json.dumps`
serialization of one row dict (rows are opaque to the client). -/
def append_rows (s : Session) (rows : List String) (offset_token : Option String)
    (resp : HttpResponse AppendBody) :
    Session × List Request × Except PyError AppendBody :=
  if ¬ truthy s.ingest_host ∨ ¬ truthy s.continuation_token then
    (s, [], .error (.runtimeError "channel not opened"))
  else
    let ndjson := String.join (rows.map fun row => row ++ "\n")
    let params := [("continuationToken", pyStr s.continuation_token)] ++
      (match offset_token with
       | some o => [("offsetToken", o)]
       | none => [])
    let url := "https://" ++ pyStr s.ingest_host ++
      "/v2/streaming/data/databases/" ++ s.config.database ++ "/schemas/" ++
      s.config.schema ++ "/pipes/" ++ s.config.pipe ++ "/channels/" ++
      s.config.channel_name ++ "/rows"
    let req : Request :=
      { method := "POST"
        url := url
        params := params
        headers := _headers s.scoped_token s.scoped_token_type ++
          [("Content-Type", "application/x-ndjson")]
        body := .raw ndjson }
    if raiseForStatusErrs resp.status then
      (s, [req], .error (.httpError resp.status))
    else
      match resp.body.next_continuation_token with
      | none => (s, [req], .error (.keyError "next_continuation_token"))
      | some ct =>
        ({ s with continuation_token := some ct }, [req], .ok resp.body)

/-- Body of the bulk-channel-status reply. -/
structure StatusBody where
  channel_statuses : Option (List (String × ChannelStatusInfo))
  deriving DecidableEq

/-- Embedding of `get_channel_status`. -/
def get_channel_status (s : Session) (resp : HttpResponse StatusBody) :
    Session × List Request × Except PyError StatusBody :=
  let url := "https://" ++ pyStr s.ingest_host ++ "/v2/streaming/databases/" ++
    s.config.database ++ "/schemas/" ++ s.config.schema ++ "/pipes/" ++
    s.config.pipe ++ ":bulk-channel-status"
  let req : Request :=
    { method := "POST"
      url := url
      params := []
      headers := _headers s.scoped_token s.scoped_token_type
      body := .jsonChannelNames [s.config.channel_name] }
  if raiseForStatusErrs resp.status then
    (s, [req], .error (.httpError resp.status))
  else
    (s, [req], .ok resp.body)

/-- The chain `status.get("channel_statuses", {}).get(name, {})
.get("last_committed_offset_token")` of `wait_for_commit`. -/
def statusCommittedToken (body : StatusBody) (channel_name : String) :
    Option String :=
  match body.channel_statuses with
  | none => none
  | some statuses =>
    match statuses.lookup channel_name with
    | none => none
    | some info => info.last_committed_offset_token

/-- The polling loop of `wait_for_commit`: `i` is the index of the next poll,
the fuel is the number of 1-second poll iterations left before the deadline. -/
def waitLoop (s : Session) (expected : String)
    (polls : Nat → HttpResponse StatusBody) : Nat → Nat → Except PyError Bool
  | _, 0 => .ok false
  | i, fuel + 1 =>
    match (get_channel_status s (polls i)).2.2 with
    | .error e => .error e
    | .ok body =>
      match statusCommittedToken body s.config.channel_name with
      | some committed =>
        if pyStrGe committed expected then .ok true
        else waitLoop s expected polls (i + 1) fuel
      | none => waitLoop s expected polls (i + 1) fuel

/-- Embedding of `wait_for_commit`: `timeout_seconds` bounds the number of
1-second poll iterations, `polls i` is the reply to the i-th status poll. -/
def wait_for_commit (s : Session) (expected_offset : Option String)
    (timeout_seconds : Nat) (polls : Nat → HttpResponse StatusBody) :
    Except PyError Bool :=
  match expected_offset with
  | none => .ok true
  | some expected => waitLoop s expected polls 0 timeout_seconds

/-- Embedding of `connect`: `get_ingest_host`, then `exchange_scoped_token`,
then `open_channel()` with no offset token, stopping at the first raise. -/
def connect (s : Session) (jwt : String) (hostResp : HttpResponse HostBody)
    (tokenResp : HttpResponse TokenBody) (requestId : String)
    (openResp : HttpResponse OpenBody) :
    Session × List Request × Except PyError Unit :=
  match get_ingest_host s jwt hostResp with
  | (s1, r1, .error e) => (s1, r1, .error e)
  | (s1, r1, .ok _) =>
    match exchange_scoped_token s1 jwt tokenResp with
    | (s2, r2, .error e) => (s2, r1 ++ r2, .error e)
    | (s2, r2, .ok _) =>
      match open_channel s2 none requestId openResp with
      | (s3, r3, .error e) => (s3, r1 ++ r2 ++ r3, .error e)
      | (s3, r3, .ok _) => (s3, r1 ++ r2 ++ r3, .ok ())

/-- Modelled from the spec: "the session's control host equals it with any
leading `https://` or `http://` scheme prefix removed" — removal of one
leading scheme prefix only, for comparison with `mkClient`. -/
def stripLeadingScheme (s : String) : String :=
  if "https://".data.isPrefixOf s.data then ⟨s.data.drop 8⟩
  else if "http://".data.isPrefixOf s.data then ⟨s.data.drop 7⟩
  else s

/-- Claim C5: for every JWT configuration with account A, user U and lifetime
L, the generated claim set satisfies `exp - iat = L` exactly,
`sub = uppercase A ++ "." ++ uppercase U`, and `iss = sub ++ "." ++ fp`. -/
theorem c5_jwt_claim_invariants (account user fp : String) (now lifetime : Int) :
    (generate_jwt_payload account user fp now lifetime).exp -
        (generate_jwt_payload account user fp now lifetime).iat = lifetime ∧
    (generate_jwt_payload account user fp now lifetime).sub =
      account.toUpper ++ "." ++ user.toUpper ∧
    (generate_jwt_payload account user fp now lifetime).iss =
      (generate_jwt_payload account user fp now lifetime).sub ++ "." ++ fp := by
  refine ⟨?_, rfl, rfl⟩
  simp [generate_jwt_payload]

/-- Claim C6: `normalizeHostname` maps every underscore to a hyphen and leaves
every other character unchanged, and a successful `get_ingest_host` both
stores the normalized discovered hostname as the ingest host and returns it. -/
theorem c6_hostname_normalization :
    (∀ host : String, (normalizeHostname host).data =
      host.data.map fun c => if c = '_' then '-' else c) ∧
    (∀ (s : Session) (jwt : String) (resp : HttpResponse HostBody) (h : String),
      extractedHost resp.body = some h → h ≠ "" →
      raiseForStatusErrs resp.status = false →
      (∃ tk, _auth_token s jwt = .ok tk) →
      (get_ingest_host s jwt resp).1.ingest_host = some (normalizeHostname h) ∧
      (get_ingest_host s jwt resp).2.2 = .ok (normalizeHostname h)) := by
  constructor
  · intro host
    unfold normalizeHostname
    by_cases hc : host.contains '_'
    · rw [if_pos hc]
      show pyReplaceList host.data "_".data "-".data = _
      exact pyReplaceList_single_char host.data
    · rw [if_neg hc]
      have hmem : ∀ c ∈ host.data, ¬ c = '_' := by
        intro c hcmem hceq
        exact hc ((String.contains_iff host '_').mpr (hceq ▸ hcmem))
      conv_lhs => rw [← List.map_id host.data]
      exact List.map_congr_left fun c hcm => by simp [hmem c hcm]
  · intro s jwt resp h hext hne hstatus ⟨tk, htk⟩
    unfold get_ingest_host
    rw [htk]
    have htr : truthy (extractedHost resp.body) = true := by
      rw [hext]
      simpa [truthy] using hne
    rw [hext] at htr ⊢
    simp [hstatus, htr, pyStr]

/-- Claim C7: on equal-length non-empty decimal-digit strings, the Python
comparison `str(committed) >= str(expected)` used by `wait_for_commit`
(embedded as `pyStrGe`) agrees exactly with numeric order. -/
theorem c7_lex_ge_iff_numeric_ge (s t : String)
    (hs : s.data.all isDecimalDigit = true) (ht : t.data.all isDecimalDigit = true)
    (hlen : s.length = t.length) (hs0 : s ≠ "") (ht0 : t ≠ "") :
    (pyStrGe s t = true ↔ decimalValue t ≤ decimalValue s) := by
  have hs2 : ∀ c ∈ s.data, isDecimalDigit c = true := by
    simpa [List.all_eq_true] using hs
  have ht2 : ∀ c ∈ t.data, isDecimalDigit c = true := by
    simpa [List.all_eq_true] using ht
  have hlen2 : s.data.length = t.data.length := hlen
  have key := pyCharListLt_iff_decimal_lt s.data t.data hlen2 hs2 ht2
  unfold pyStrGe decimalValue
  rw [Bool.not_eq_true']
  rw [← Bool.not_eq_true (pyCharListLt s.data t.data)]
  rw [key]
  omega

/-- Witness for C7 at committed = "12", expected = "09". -/
theorem c7_lex_ge_iff_numeric_ge_witness :
    (pyStrGe "12" "09" = true ↔ decimalValue "09" ≤ decimalValue "12") :=
  c7_lex_ge_iff_numeric_ge "12" "09" (by decide) (by decide) (by decide)
    (by decide) (by decide)

/-- Claim C8: the public-key fingerprint is deterministic in the DER-encoded
key material, and equals the base64 of its SHA-256 digest prefixed "SHA256:". -/
theorem c8_fingerprint_deterministic (d1 d2 : List Nat) (h : d1 = d2) :
    _public_key_fingerprint d1 = _public_key_fingerprint d2 ∧
    _public_key_fingerprint d1 = "SHA256:" ++ base64Encode (sha256 d1) :=
  ⟨by rw [h], rfl⟩

/-- Witness for C8 on concrete key material. -/
theorem c8_fingerprint_deterministic_witness :
    _public_key_fingerprint [48, 1, 255] = _public_key_fingerprint [48, 1, 255] ∧
    _public_key_fingerprint [48, 1, 255] =
      "SHA256:" ++ base64Encode (sha256 [48, 1, 255]) :=
  c8_fingerprint_deterministic [48, 1, 255] [48, 1, 255] rfl

/-- Claim C9: a successful `append_rows` changes only `continuation_token`;
configuration, control host, ingest host, scoped token, its type and the
offset token are identical before and after the call. -/
theorem c9_append_rows_frame (s : Session) (rows : List String)
    (offset_token : Option String) (resp : HttpResponse AppendBody)
    (body : AppendBody)
    (hok : (append_rows s rows offset_token resp).2.2 = .ok body) :
    (append_rows s rows offset_token resp).1.config = s.config ∧
    (append_rows s rows offset_token resp).1.control_host = s.control_host ∧
    (append_rows s rows offset_token resp).1.ingest_host = s.ingest_host ∧
    (append_rows s rows offset_token resp).1.scoped_token = s.scoped_token ∧
    (append_rows s rows offset_token resp).1.scoped_token_type =
      s.scoped_token_type ∧
    (append_rows s rows offset_token resp).1.offset_token = s.offset_token := by
  unfold append_rows at hok ⊢
  by_cases h1 : ¬ truthy s.ingest_host ∨ ¬ truthy s.continuation_token
  · rw [if_pos h1] at hok
    simp at hok
  · rw [if_neg h1] at hok ⊢
    by_cases h2 : raiseForStatusErrs resp.status = true
    · simp only [h2, if_true] at hok
      simp at hok
    · simp only [Bool.not_eq_true] at h2
      simp only [h2, Bool.false_eq_true, if_false] at hok ⊢
      cases hx : resp.body.next_continuation_token with
      | none =>
        rw [hx] at hok
        simp at hok
      | some ct => simp

/-- Characterization of a successful `open_channel`: the guard passed, the body
carried both fields, and the session stored the returned tokens. -/
theorem open_channel_ok_characterization (s : Session) (ot : Option String)
    (rid : String) (resp : HttpResponse OpenBody) (s1 : Session)
    (l1 : List Request) (d1 : OpenBody)
    (h : open_channel s ot rid resp = (s1, l1, .ok d1)) :
    truthy s.ingest_host = true ∧
    ∃ ct cs, resp.body.next_continuation_token = some ct ∧
      resp.body.channel_status = some cs ∧
      s1 = { s with continuation_token := some ct,
                    offset_token := cs.last_committed_offset_token } := by
  unfold open_channel at h
  by_cases hg : ¬ truthy s.ingest_host
  · rw [if_pos hg] at h
    simp at h
  · rw [if_neg hg] at h
    refine ⟨by simpa using hg, ?_⟩
    by_cases h2 : raiseForStatusErrs resp.status = true
    · simp [h2] at h
    · simp only [Bool.not_eq_true] at h2
      simp only [h2, Bool.false_eq_true, if_false] at h
      cases hx : resp.body.next_continuation_token with
      | none =>
        rw [hx] at h
        simp at h
      | some ct =>
        rw [hx] at h
        cases hy : resp.body.channel_status with
        | none =>
          rw [hy] at h
          simp at h
        | some cs =>
          rw [hy] at h
          simp only [Prod.mk.injEq] at h
          exact ⟨ct, cs, rfl, rfl, h.1.symm⟩

/-- Claim C1: after a successful `open_channel` has stored continuation token
ct1, an `append_rows(rows, offset_token="5")` call sends exactly the query
parameters `continuationToken=ct1` and `offsetToken=5`, and on a response
carrying `next_continuation_token=ct2` the stored token becomes ct2. -/
theorem c1_continuation_token_chaining
    (s0 : Session) (ot0 : Option String) (rid : String)
    (r1 : HttpResponse OpenBody) (s1 : Session) (l1 : List Request)
    (d1 : OpenBody) (rows : List String) (r2 : HttpResponse AppendBody)
    (ct1 ct2 : String)
    (hopen : open_channel s0 ot0 rid r1 = (s1, l1, .ok d1))
    (hct1 : s1.continuation_token = some ct1) (hct1ne : ct1 ≠ "")
    (hst2 : raiseForStatusErrs r2.status = false)
    (hnext : r2.body.next_continuation_token = some ct2) :
    (∃ req : Request,
      (append_rows s1 rows (some "5") r2).2.1 = [req] ∧
      req.params = [("continuationToken", ct1), ("offsetToken", "5")]) ∧
    (append_rows s1 rows (some "5") r2).1.continuation_token = some ct2 := by
  obtain ⟨htr, ct, cs, hct, hcs, hs1⟩ :=
    open_channel_ok_characterization s0 ot0 rid r1 s1 l1 d1 hopen
  have hihost : s1.ingest_host = s0.ingest_host := by rw [hs1]
  have hguard : ¬ (¬ truthy s1.ingest_host = true ∨
      ¬ truthy s1.continuation_token = true) := by
    push_neg
    refine ⟨by rw [hihost]; exact htr, ?_⟩
    rw [hct1]
    simpa [truthy] using hct1ne
  unfold append_rows
  rw [if_neg hguard]
  simp only [hst2, Bool.false_eq_true, if_false]
  rw [hnext]
  refine ⟨⟨_, rfl, ?_⟩, rfl⟩
  rw [hct1]
  rfl

deriving instance DecidableEq for Except

/-- Example configuration (pre-issued-token method) used by the concrete
witnesses and counterexamples below. -/
def cfgEx : SnowpipeConfig :=
  { account_identifier := "acct"
    user := "svc"
    role := "r"
    database := "db"
    schema := "sc"
    table := "tbl"
    pipe := "p"
    channel_name := "ch"
    auth_method := "pat"
    private_key_path := "key.pem"
    private_key_passphrase := none
    public_key_fp := none
    jwt_lifetime_seconds := 3600
    pat_token := some "abc"
    control_host := none }

/-- Example session with host and scoped token resolved, channel not yet open. -/
def sPreOpen : Session :=
  { config := cfgEx
    control_host := "acct.snowflakecomputing.com"
    ingest_host := some "ingest.example"
    scoped_token := some "tok"
    scoped_token_type := some "OAUTH"
    continuation_token := none
    offset_token := none }

/-- Example open-channel reply storing continuation token "ct1". -/
def r1Ex : HttpResponse OpenBody := ⟨200, ⟨some "ct1", some ⟨none⟩⟩⟩

/-- Example append-rows reply carrying next continuation token "ct2". -/
def r2Ex : HttpResponse AppendBody := ⟨200, ⟨some "ct2"⟩⟩

/-- The session after the example `open_channel` succeeded. -/
def s1Ex : Session := { sPreOpen with continuation_token := some "ct1" }

/-- Witness for C1 on the spec's concrete scenario. -/
theorem c1_continuation_token_chaining_witness :
    (∃ req : Request,
      (append_rows s1Ex ["row"] (some "5") r2Ex).2.1 = [req] ∧
      req.params = [("continuationToken", "ct1"), ("offsetToken", "5")]) ∧
    (append_rows s1Ex ["row"] (some "5") r2Ex).1.continuation_token =
      some "ct2" :=
  c1_continuation_token_chaining sPreOpen none "rid" r1Ex s1Ex
    (open_channel sPreOpen none "rid" r1Ex).2.1 ⟨some "ct1", some ⟨none⟩⟩
    ["row"] r2Ex "ct1" "ct2" (by decide) (by decide) (by decide) (by decide)
    (by decide)

/-- Witness for C9 on a concrete successful append. -/
theorem c9_append_rows_frame_witness :
    (append_rows s1Ex ["r1"] none ⟨200, ⟨some "ct9"⟩⟩).1.config = s1Ex.config ∧
    (append_rows s1Ex ["r1"] none ⟨200, ⟨some "ct9"⟩⟩).1.control_host =
      s1Ex.control_host ∧
    (append_rows s1Ex ["r1"] none ⟨200, ⟨some "ct9"⟩⟩).1.ingest_host =
      s1Ex.ingest_host ∧
    (append_rows s1Ex ["r1"] none ⟨200, ⟨some "ct9"⟩⟩).1.scoped_token =
      s1Ex.scoped_token ∧
    (append_rows s1Ex ["r1"] none ⟨200, ⟨some "ct9"⟩⟩).1.scoped_token_type =
      s1Ex.scoped_token_type ∧
    (append_rows s1Ex ["r1"] none ⟨200, ⟨some "ct9"⟩⟩).1.offset_token =
      s1Ex.offset_token :=
  c9_append_rows_frame s1Ex ["r1"] none ⟨200, ⟨some "ct9"⟩⟩ ⟨some "ct9"⟩
    (by decide)

/-- Witness for C6 on the spec's example hostname. -/
theorem c6_hostname_normalization_witness :
    (get_ingest_host sPreOpen "jwt" ⟨200, .jsonBody (some "abc_def-123")⟩).1.ingest_host =
      some (normalizeHostname "abc_def-123") ∧
    (get_ingest_host sPreOpen "jwt" ⟨200, .jsonBody (some "abc_def-123")⟩).2.2 =
      .ok (normalizeHostname "abc_def-123") :=
  c6_hostname_normalization.2 sPreOpen "jwt" ⟨200, .jsonBody (some "abc_def-123")⟩
    "abc_def-123" (by decide) (by decide) (by decide)
    ⟨("abc", "PROGRAMMATIC_ACCESS_TOKEN"), by decide⟩

theorem get_channel_status_result (s : Session) (resp : HttpResponse StatusBody) :
    (get_channel_status s resp).2.2 =
      if raiseForStatusErrs resp.status then .error (.httpError resp.status)
      else .ok resp.body := by
  by_cases h : raiseForStatusErrs resp.status = true
  · simp [get_channel_status, h]
  · simp only [Bool.not_eq_true] at h
    simp [get_channel_status, h]

/-- A poll reply that neither errs by status nor reports a qualifying
committed offset token. -/
def nonQualifyingPoll (s : Session) (e : String)
    (resp : HttpResponse StatusBody) : Bool :=
  ! raiseForStatusErrs resp.status &&
    Option.all (fun c => ! pyStrGe c e)
      (statusCommittedToken resp.body s.config.channel_name)

theorem waitLoop_all_non_qualifying (s : Session) (e : String)
    (polls : Nat → HttpResponse StatusBody) :
    ∀ fuel i, (∀ j, i ≤ j → j < i + fuel → nonQualifyingPoll s e (polls j) = true) →
      waitLoop s e polls i fuel = .ok false := by
  intro fuel
  induction fuel with
  | zero => intro i _; rfl
  | succ n ih =>
    intro i hall
    have hi := hall i le_rfl (by omega)
    simp only [nonQualifyingPoll, Bool.and_eq_true, Bool.not_eq_true'] at hi
    rw [waitLoop, get_channel_status_result, if_neg (by simp [hi.1])]
    have hnext : waitLoop s e polls (i + 1) n = .ok false :=
      ih (i + 1) fun j h1 h2 => hall j (by omega) (by omega)
    show (match statusCommittedToken (polls i).body s.config.channel_name with
      | some committed =>
        if pyStrGe committed e = true then Except.ok true
        else waitLoop s e polls (i + 1) n
      | none => waitLoop s e polls (i + 1) n) = Except.ok false
    cases hc : statusCommittedToken (polls i).body s.config.channel_name with
    | none => exact hnext
    | some committed =>
      have hge := hi.2
      rw [hc] at hge
      simp only [Option.all_some, Bool.not_eq_true'] at hge
      show (if pyStrGe committed e = true then Except.ok true
        else waitLoop s e polls (i + 1) n) = Except.ok false
      rw [if_neg (by simp [hge])]
      exact hnext

/-- Claim C2, amended: `wait_for_commit` returns True at once when no expected
offset is given and False when the timeout window passes with only
non-qualifying polls, but it does not guard its status polls: an HTTP error
raised by `get_channel_status` during polling propagates to the caller. -/
theorem c2_wait_for_commit_amended :
    (∀ (s : Session) (timeout : Nat) (polls : Nat → HttpResponse StatusBody),
      wait_for_commit s none timeout polls = .ok true) ∧
    (∀ (s : Session) (e : String) (timeout : Nat)
        (polls : Nat → HttpResponse StatusBody),
      (∀ j, j < timeout → nonQualifyingPoll s e (polls j) = true) →
      wait_for_commit s (some e) timeout polls = .ok false) ∧
    (∀ (s : Session) (e : String) (timeout : Nat)
        (polls : Nat → HttpResponse StatusBody),
      0 < timeout → raiseForStatusErrs (polls 0).status = true →
      wait_for_commit s (some e) timeout polls =
        .error (.httpError (polls 0).status)) := by
  refine ⟨fun s timeout polls => rfl, ?_, ?_⟩
  · intro s e timeout polls hall
    exact waitLoop_all_non_qualifying s e polls timeout 0
      fun j h1 h2 => hall j (by omega)
  · intro s e timeout polls htpos herr
    obtain ⟨n, rfl⟩ : ∃ n, timeout = n + 1 :=
      ⟨timeout - 1, by omega⟩
    show waitLoop s e polls 0 (n + 1) = _
    rw [waitLoop, get_channel_status_result, if_pos herr]

/-- Status polls that always answer HTTP 500. -/
def pollsErr : Nat → HttpResponse StatusBody := fun _ => ⟨500, ⟨none⟩⟩

/-- Status polls that always report committed offset "5" with status 200. -/
def pollsLow : Nat → HttpResponse StatusBody :=
  fun _ => ⟨200, ⟨some [("ch", ⟨some "5"⟩)]⟩⟩

/-- Counterexample to C2 as stated: with an expected offset and an HTTP-500
status poll, `wait_for_commit` raises instead of returning a boolean. -/
theorem c2_counterexample :
    wait_for_commit s1Ex (some "5") 3 pollsErr = .error (.httpError 500) := by
  decide

/-- Witness for C2 (amended) on concrete sessions and poll streams. -/
theorem c2_wait_for_commit_amended_witness :
    wait_for_commit s1Ex (some "9") 2 pollsLow = .ok false ∧
    wait_for_commit s1Ex (some "9") 2 pollsErr = .error (.httpError 500) :=
  ⟨c2_wait_for_commit_amended.2.1 s1Ex "9" 2 pollsLow (by decide),
   c2_wait_for_commit_amended.2.2 s1Ex "9" 2 pollsErr (by decide) (by decide)⟩

theorem get_ingest_host_error_frame (s : Session) (jwt : String)
    (resp : HttpResponse HostBody) (e : PyError)
    (herr : (get_ingest_host s jwt resp).2.2 = .error e) :
    (get_ingest_host s jwt resp).1 = s := by
  unfold get_ingest_host at herr ⊢
  cases hat : _auth_token s jwt with
  | error e2 => rfl
  | ok tk =>
    obtain ⟨token, token_type⟩ := tk
    by_cases h2 : raiseForStatusErrs resp.status = true
    · simp [h2]
    · simp only [Bool.not_eq_true] at h2
      simp only [h2, Bool.false_eq_true, if_false] at herr ⊢
      by_cases h3 : truthy (extractedHost resp.body) = true
      · rw [hat] at herr
        simp [h3] at herr
      · simp only [Bool.not_eq_true] at h3
        simp [h3]

theorem exchange_scoped_token_error_frame (s : Session) (jwt : String)
    (resp : HttpResponse TokenBody) (e : PyError)
    (herr : (exchange_scoped_token s jwt resp).2.2 = .error e) :
    (exchange_scoped_token s jwt resp).1 = s := by
  unfold exchange_scoped_token at herr ⊢
  by_cases hp : pyToLower s.config.auth_method = "pat"
  · simp [hp] at herr
  · rw [if_neg hp] at herr ⊢
    cases hat : _auth_token s jwt with
    | error e2 => rfl
    | ok tk =>
      obtain ⟨token, token_type⟩ := tk
      by_cases h2 : raiseForStatusErrs resp.status = true
      · simp [h2]
      · simp only [Bool.not_eq_true] at h2
        simp only [h2, Bool.false_eq_true, if_false] at herr ⊢
        cases ht : resp.body.token with
        | none => simp
        | some tok =>
          rw [hat] at herr
          rw [ht] at herr
          simp at herr

theorem open_channel_error_frame (s : Session) (ot : Option String)
    (rid : String) (resp : HttpResponse OpenBody) (e : PyError)
    (herr : (open_channel s ot rid resp).2.2 = .error e) :
    (open_channel s ot rid resp).1 = s ∨
    ∃ ct, resp.body.next_continuation_token = some ct ∧
      resp.body.channel_status = none ∧
      (open_channel s ot rid resp).1 =
        { s with continuation_token := some ct } := by
  unfold open_channel at herr ⊢
  by_cases hg : ¬ truthy s.ingest_host
  · left
    simp [hg]
  · rw [if_neg hg] at herr ⊢
    by_cases h2 : raiseForStatusErrs resp.status = true
    · left
      simp [h2]
    · simp only [Bool.not_eq_true] at h2
      simp only [h2, Bool.false_eq_true, if_false] at herr ⊢
      cases hx : resp.body.next_continuation_token with
      | none =>
        left
        simp
      | some ct =>
        cases hy : resp.body.channel_status with
        | none =>
          right
          exact ⟨ct, rfl, rfl, by simp⟩
        | some cs =>
          rw [hx, hy] at herr
          simp at herr

theorem open_channel_missing_channel_status (s : Session) (ot : Option String)
    (rid : String) (resp : HttpResponse OpenBody) (ct : String)
    (hg : truthy s.ingest_host = true)
    (h2 : raiseForStatusErrs resp.status = false)
    (hx : resp.body.next_continuation_token = some ct)
    (hy : resp.body.channel_status = none) :
    (open_channel s ot rid resp).2.2 = .error (.keyError "channel_status") ∧
    (open_channel s ot rid resp).1 =
      { s with continuation_token := some ct } := by
  unfold open_channel
  rw [if_neg (by simp [hg])]
  simp only [h2, Bool.false_eq_true, if_false]
  rw [hx, hy]
  exact ⟨rfl, rfl⟩

/-- Claim C3, amended: `get_ingest_host` and `exchange_scoped_token` are
atomic — any raise leaves every session field as it was; `open_channel` is
atomic on error statuses and on bodies missing `next_continuation_token`, but
when a passing body carries `next_continuation_token` and lacks
`channel_status` it raises after having already updated the stored
continuation token (all other fields unchanged). -/
theorem c3_connect_step_atomicity_amended :
    (∀ (s : Session) (jwt : String) (resp : HttpResponse HostBody) (e : PyError),
      (get_ingest_host s jwt resp).2.2 = .error e →
      (get_ingest_host s jwt resp).1 = s) ∧
    (∀ (s : Session) (jwt : String) (resp : HttpResponse TokenBody) (e : PyError),
      (exchange_scoped_token s jwt resp).2.2 = .error e →
      (exchange_scoped_token s jwt resp).1 = s) ∧
    (∀ (s : Session) (ot : Option String) (rid : String)
        (resp : HttpResponse OpenBody) (e : PyError),
      (open_channel s ot rid resp).2.2 = .error e →
      (open_channel s ot rid resp).1 = s ∨
      ∃ ct, resp.body.next_continuation_token = some ct ∧
        resp.body.channel_status = none ∧
        (open_channel s ot rid resp).1 =
          { s with continuation_token := some ct }) ∧
    (∀ (s : Session) (ot : Option String) (rid : String)
        (resp : HttpResponse OpenBody) (ct : String),
      truthy s.ingest_host = true → raiseForStatusErrs resp.status = false →
      resp.body.next_continuation_token = some ct →
      resp.body.channel_status = none →
      (open_channel s ot rid resp).2.2 = .error (.keyError "channel_status") ∧
      (open_channel s ot rid resp).1 =
        { s with continuation_token := some ct }) :=
  ⟨get_ingest_host_error_frame, exchange_scoped_token_error_frame,
   open_channel_error_frame, open_channel_missing_channel_status⟩

/-- Counterexample to C3 as stated: a 200 open-channel body that has
`next_continuation_token` but no `channel_status` makes `open_channel` raise
with the session's continuation token already mutated. -/
theorem c3_counterexample :
    (open_channel sPreOpen none "rid" ⟨200, ⟨some "ct1", none⟩⟩).2.2 =
      .error (.keyError "channel_status") ∧
    (open_channel sPreOpen none "rid" ⟨200, ⟨some "ct1", none⟩⟩).1.continuation_token =
      some "ct1" ∧
    sPreOpen.continuation_token = none := by
  refine ⟨by decide, by decide, rfl⟩

/-- Example session using key-pair signing (so token exchange goes over the
network). -/
def sJwtPre : Session :=
  { sPreOpen with
    config := { cfgEx with auth_method := "snowflake_jwt", pat_token := none } }

/-- Witness for C3 (amended) on concrete failing responses. -/
theorem c3_connect_step_atomicity_amended_witness :
    (get_ingest_host sPreOpen "jwt" ⟨503, .jsonBody none⟩).1 = sPreOpen ∧
    (exchange_scoped_token sJwtPre "jwt" ⟨503, ⟨none⟩⟩).1 = sJwtPre ∧
    ((open_channel sPreOpen none "rid" ⟨503, ⟨none, none⟩⟩).1 = sPreOpen ∨
      ∃ ct, (⟨503, ⟨none, none⟩⟩ : HttpResponse OpenBody).body.next_continuation_token = some ct ∧
        (⟨503, ⟨none, none⟩⟩ : HttpResponse OpenBody).body.channel_status = none ∧
        (open_channel sPreOpen none "rid" ⟨503, ⟨none, none⟩⟩).1 =
          { sPreOpen with continuation_token := some ct }) ∧
    ((open_channel sPreOpen none "r2" ⟨200, ⟨some "ctw", none⟩⟩).2.2 =
        .error (.keyError "channel_status") ∧
      (open_channel sPreOpen none "r2" ⟨200, ⟨some "ctw", none⟩⟩).1 =
        { sPreOpen with continuation_token := some "ctw" }) :=
  ⟨c3_connect_step_atomicity_amended.1 sPreOpen "jwt" ⟨503, .jsonBody none⟩
      (.httpError 503) (by decide),
   c3_connect_step_atomicity_amended.2.1 sJwtPre "jwt" ⟨503, ⟨none⟩⟩
      (.httpError 503) (by decide),
   c3_connect_step_atomicity_amended.2.2.1 sPreOpen none "rid" ⟨503, ⟨none, none⟩⟩
      (.httpError 503) (by decide),
   c3_connect_step_atomicity_amended.2.2.2 sPreOpen none "r2"
      ⟨200, ⟨some "ctw", none⟩⟩ "ctw" (by decide) (by decide) (by decide)
      (by decide)⟩

/-- Claim C4, amended: only the spelling whose lowercase form is exactly
"pat" makes `exchange_scoped_token` reuse the configured token verbatim with
type `PROGRAMMATIC_ACCESS_TOKEN` and no network call; under the other
accepted spellings ("programmatic_access_token", "programmatic") the method
takes the network-exchange path (issuing a request unless building the auth
token itself raised). -/
theorem c4_pat_token_exchange_amended :
    (∀ (s : Session) (jwt : String) (resp : HttpResponse TokenBody),
      pyToLower s.config.auth_method = "pat" →
      exchange_scoped_token s jwt resp =
        ({ s with scoped_token := s.config.pat_token,
                  scoped_token_type := some "PROGRAMMATIC_ACCESS_TOKEN" },
         [], .ok s.config.pat_token)) ∧
    (∀ (s : Session) (jwt : String) (resp : HttpResponse TokenBody),
      pyToLower s.config.auth_method ≠ "pat" →
      (∃ e, _auth_token s jwt = .error e) ∨
      (exchange_scoped_token s jwt resp).2.1 ≠ []) := by
  constructor
  · intro s jwt resp hp
    unfold exchange_scoped_token
    rw [if_pos hp]
  · intro s jwt resp hp
    unfold exchange_scoped_token
    rw [if_neg hp]
    cases hat : _auth_token s jwt with
    | error e2 => exact Or.inl ⟨e2, rfl⟩
    | ok tk =>
      obtain ⟨token, token_type⟩ := tk
      right
      by_cases h2 : raiseForStatusErrs resp.status = true
      · simp [h2]
      · simp only [Bool.not_eq_true] at h2
        simp only [h2, Bool.false_eq_true, if_false]
        cases ht : resp.body.token with
        | none => simp
        | some tok => simp

/-- Configuration spelled "programmatic_access_token" — accepted by
`_auth_token` but not by `exchange_scoped_token`'s short-circuit. -/
def cfgProg : SnowpipeConfig :=
  { cfgEx with auth_method := "programmatic_access_token" }

/-- Session for `cfgProg`, host already resolved. -/
def sProgPre : Session := { sPreOpen with config := cfgProg }

/-- Counterexample to C4 as stated: under the accepted spelling
"programmatic_access_token" (with configured token "abc"),
`exchange_scoped_token` performs a network call and stores the response's
token with type OAUTH rather than the configured token verbatim with type
PROGRAMMATIC_ACCESS_TOKEN. -/
theorem c4_counterexample :
    (exchange_scoped_token sProgPre "jwt" ⟨200, ⟨some "xyz"⟩⟩).2.1 ≠ [] ∧
    (exchange_scoped_token sProgPre "jwt" ⟨200, ⟨some "xyz"⟩⟩).1.scoped_token =
      some "xyz" ∧
    (exchange_scoped_token sProgPre "jwt" ⟨200, ⟨some "xyz"⟩⟩).1.scoped_token_type =
      some "OAUTH" ∧
    cfgProg.pat_token = some "abc" := by
  refine ⟨by decide, by decide, by decide, rfl⟩

/-- Witness for C4 (amended) on the spec's scenario: method "pat", token
"abc". -/
theorem c4_pat_token_exchange_amended_witness :
    exchange_scoped_token sPreOpen "jwt" ⟨200, ⟨some "ignored"⟩⟩ =
      ({ sPreOpen with scoped_token := some "abc",
                       scoped_token_type := some "PROGRAMMATIC_ACCESS_TOKEN" },
       [], .ok (some "abc")) :=
  c4_pat_token_exchange_amended.1 sPreOpen "jwt" ⟨200, ⟨some "ignored"⟩⟩
    (by decide)

/-- Claim C10, amended: when a control host is configured (truthy), the
session's control host is the configured value with every occurrence of
"https://" removed and then every occurrence of "http://" removed — which
coincides with stripping one leading "https://" exactly when the remainder
contains no further scheme substring; otherwise it is
`<account_identifier>.snowflakecomputing.com`; and the ingest host, scoped
token, token type, continuation token and offset token all start absent. -/
theorem c10_constructor_normalization_amended :
    (∀ cfg : SnowpipeConfig, truthy cfg.control_host = true →
      (mkClient cfg).control_host =
        pyReplaceStr (pyReplaceStr (pyStr cfg.control_host) "https://" "")
          "http://" "") ∧
    (∀ cfg : SnowpipeConfig, truthy cfg.control_host = false →
      (mkClient cfg).control_host =
        cfg.account_identifier ++ ".snowflakecomputing.com") ∧
    (∀ (cfg : SnowpipeConfig) (t : String),
      cfg.control_host = some ("https://" ++ t) →
      hasSub t.data "https://".data = false →
      hasSub t.data "http://".data = false →
      (mkClient cfg).control_host = t) ∧
    (∀ cfg : SnowpipeConfig,
      (mkClient cfg).ingest_host = none ∧ (mkClient cfg).scoped_token = none ∧
      (mkClient cfg).scoped_token_type = none ∧
      (mkClient cfg).continuation_token = none ∧
      (mkClient cfg).offset_token = none) := by
  refine ⟨?_, ?_, ?_, fun cfg => ⟨rfl, rfl, rfl, rfl, rfl⟩⟩
  · intro cfg h
    simp [mkClient, h]
  · intro cfg h
    simp [mkClient, h]
  · intro cfg t hch hs1 hs2
    have hne : ("https://" ++ t) ≠ "" := by
      intro h
      have hdata := congrArg String.data h
      rw [String.data_append] at hdata
      simp at hdata
    have htr : truthy (some ("https://" ++ t)) = true := by
      simpa [truthy] using hne
    have hstep1 : pyReplaceStr ("https://" ++ t) "https://" "" = t := by
      unfold pyReplaceStr pyReplaceList
      rw [String.data_append]
      have hlenEq : ("https://".data ++ t.data).length = 7 + t.data.length + 1 := by
        rw [List.length_append]
        norm_num
        omega
      rw [hlenEq, pyReplaceAux_leading "https://".data "".data (by decide)]
      rw [pyReplaceAux_no_occurrence "https://".data "".data
        (7 + t.data.length) t.data (by omega) hs1]
      rfl
    have hstep2 : pyReplaceStr t "http://" "" = t := by
      unfold pyReplaceStr pyReplaceList
      rw [pyReplaceAux_no_occurrence "http://".data "".data
        t.data.length t.data le_rfl hs2]
    simp [mkClient, htr, hch, pyStr, hstep1, hstep2]

/-- Configuration whose control host has a scheme substring in the middle. -/
def cfgHostMid : SnowpipeConfig :=
  { cfgEx with control_host := some "a.comhttps://b" }

/-- Counterexample to C10 as stated: the constructor removes a non-leading
"https://" occurrence too, so the stored control host differs from the
configured value with only a leading scheme prefix removed. -/
theorem c10_counterexample :
    (mkClient cfgHostMid).control_host ≠
      stripLeadingScheme "a.comhttps://b" := by
  decide

/-- Configuration with a single leading scheme prefix. -/
def cfgHostLead : SnowpipeConfig :=
  { cfgEx with control_host := some "https://example.com" }

/-- Witness for C10 (amended) on a leading-scheme control host. -/
theorem c10_constructor_normalization_amended_witness :
    (mkClient cfgHostLead).control_host = "example.com" ∧
    (mkClient cfgHostLead).ingest_host = none :=
  ⟨c10_constructor_normalization_amended.2.2.1 cfgHostLead "example.com"
      (by decide) (by decide) (by decide),
   (c10_constructor_normalization_amended.2.2.2 cfgHostLead).1⟩
